import Mathlib

/-!
Shallow embedding of the noise-map builder module of noise-rs
(`src/utils/noise_map_builder.rs` and its `plane_map` / `cylinder_map` /
`sphere_map` submodules): the three projection builders, their setters,
and their `build` loops.

Modelling conventions:

* `f64` values are modelled exactly: by `ℚ` in the plane builder, whose
  arithmetic is field arithmetic only, and by `ℝ` in the cylinder and
  sphere builders, whose builds apply trigonometric functions.
* The external grid type `NoiseMap` is modelled as a width/height pair
  together with a total cell function, default-initialised to `0`
  (the Grid Sink contract: writing `(x, y)` then reading `(x, y)`
  returns the written value).
* The progress callback `Fn(usize, usize)` is effect-only; its
  invocations are modelled as the list of argument pairs passed to it,
  returned by `build` alongside the map, in invocation order.
* Rust's `%` on `usize` aborts the program on a zero divisor; this is
  modelled by `checkedRem` returning `none`, in which case `build`
  returns `none` ("build does not return").
-/

/-- The external Grid Sink (`utils::NoiseMap`): a dense `width × height`
buffer of scalars, default-initialised to `0`, addressed by `(x, y)`. -/
structure NoiseMap (α : Type) where
  width : ℕ
  height : ℕ
  cells : ℕ → ℕ → α

/-- `NoiseMap::new(width, height)`: a fresh zero-filled map. -/
def NoiseMap.new (α : Type) [Zero α] (width height : ℕ) : NoiseMap α :=
  ⟨width, height, fun _ _ => 0⟩

/-- The write `result_map[(x, y)] = v`. -/
def NoiseMap.set {α : Type} (m : NoiseMap α) (x y : ℕ) (v : α) : NoiseMap α :=
  { m with cells := fun i j => if i = x ∧ j = y then v else m.cells i j }

/-- Modelled from the spec: `math::interpolate::linear`, which is not
among the sources under review; per the spec it is `a + t * (b - a)`,
with no clamping of `t`. -/
def interpolate.linear (a b t : ℚ) : ℚ := a + t * (b - a)

/-- `ProgressCallbackConfig`: the stored granularity (a `u8`).  The
callback function itself is effect-only and is modelled by the event
list returned by `build`. -/
structure ProgressCallbackConfig where
  granularity : ℕ
deriving DecidableEq

/-- `u8::checked_ilog10` on the widened value: `none` on `0`, otherwise
the floor of the base-10 logarithm. -/
def checked_ilog10 (n : ℕ) : Option ℕ :=
  if n = 0 then none else some (Nat.log 10 n)

/-- Rust's `%` on `usize`: the remainder, aborting the program (modelled
as `none`) when the divisor is `0`. -/
def checkedRem (a b : ℕ) : Option ℕ :=
  if b = 0 then none else some (a % b)

/-- Body of the inner `for x` loop of the plane `build`s: write the cell,
then run the progress-callback check.  The accumulator is `none` once a
remainder-by-zero has aborted the build. -/
def stepCell {α : Type} (cfg : Option ProgressCallbackConfig) (width height : ℕ)
    (cellVal : ℕ → ℕ → α) (acc : Option (NoiseMap α × List (ℕ × ℕ)))
    (y x : ℕ) : Option (NoiseMap α × List (ℕ × ℕ)) :=
  match acc with
  | none => none
  | some (m, events) =>
    let m' := m.set x y (cellVal x y)
    match cfg with
    | none => some (m', events)
    | some callback_config =>
      let progress_pt := y * x
      match checkedRem progress_pt callback_config.granularity with
      | none => none
      | some r =>
        some (m', events ++ if r = 0 then [(width * height, progress_pt)] else [])

/-- The inner `for x in 0..width` loop of the plane `build`s at row `y`. -/
def stepRow {α : Type} (cfg : Option ProgressCallbackConfig) (width height : ℕ)
    (cellVal : ℕ → ℕ → α) (acc : Option (NoiseMap α × List (ℕ × ℕ)))
    (y : ℕ) : Option (NoiseMap α × List (ℕ × ℕ)) :=
  (List.range width).foldl (fun a x => stepCell cfg width height cellVal a y x) acc

/-- The full `for y in 0..height { for x in 0..width { .. } }` loop of the
plane `build`s, starting from the fresh map and the empty event list. -/
def buildLoop {α : Type} [Zero α] (cfg : Option ProgressCallbackConfig)
    (width height : ℕ) (cellVal : ℕ → ℕ → α) :
    Option (NoiseMap α × List (ℕ × ℕ)) :=
  (List.range height).foldl (fun a y => stepRow cfg width height cellVal a y)
    (some (NoiseMap.new α width height, []))

/-- The callback-free `for y { for x { .. } }` fill loop shared by the
cylinder and sphere `build`s (and the map component of the plane ones). -/
def fillLoop {α : Type} [Zero α] (width height : ℕ) (cellVal : ℕ → ℕ → α) :
    NoiseMap α :=
  (List.range height).foldl
    (fun m y => (List.range width).foldl (fun m x => m.set x y (cellVal x y)) m)
    (NoiseMap.new α width height)

/-- The events appended by the progress check at cell `(x, y)`: one
invocation with arguments `(width * height, y * x)` when
`(y * x) % granularity = 0`, none otherwise, none when no callback is
configured. -/
def cellEvents (cfg : Option ProgressCallbackConfig) (width height y x : ℕ) :
    List (ℕ × ℕ) :=
  match cfg with
  | none => []
  | some callback_config =>
    if (y * x) % callback_config.granularity = 0
    then [(width * height, y * x)] else []

/-- Concatenation of the lists produced by `f` over a list of indices. -/
def listConcatMap {β : Type} (f : ℕ → List β) : List ℕ → List β
  | [] => []
  | a :: l => f a ++ listConcatMap f l

/-- All progress-callback invocations of a plane build, in traversal
order (`y` outer, `x` inner). -/
def eventsList (cfg : Option ProgressCallbackConfig) (width height : ℕ) :
    List (ℕ × ℕ) :=
  listConcatMap
    (fun y => listConcatMap (fun x => cellEvents cfg width height y x)
      (List.range width))
    (List.range height)

/-- `PlaneMapBuilder<SourceModule, 3>`; the source module is represented
by its `get` function on 3-component points. -/
structure PlaneMapBuilder where
  is_seamless : Bool
  x_bounds : ℚ × ℚ
  y_bounds : ℚ × ℚ
  size : ℕ × ℕ
  source_module : ℚ × ℚ × ℚ → ℚ
  callback_config : Option ProgressCallbackConfig

/-- `PlaneMapBuilder::new`. -/
def PlaneMapBuilder.new (source_module : ℚ × ℚ × ℚ → ℚ) : PlaneMapBuilder :=
  { is_seamless := false
    x_bounds := (-1, 1)
    y_bounds := (-1, 1)
    size := (100, 100)
    source_module := source_module
    callback_config := none }

/-- `PlaneMapBuilder::set_is_seamless`. -/
def PlaneMapBuilder.set_is_seamless (self : PlaneMapBuilder)
    (is_seamless : Bool) : PlaneMapBuilder :=
  { self with is_seamless := is_seamless }

/-- `PlaneMapBuilder::set_x_bounds`. -/
def PlaneMapBuilder.set_x_bounds (self : PlaneMapBuilder)
    (lower_x_bound upper_x_bound : ℚ) : PlaneMapBuilder :=
  { self with x_bounds := (lower_x_bound, upper_x_bound) }

/-- `PlaneMapBuilder::set_y_bounds`. -/
def PlaneMapBuilder.set_y_bounds (self : PlaneMapBuilder)
    (lower_y_bound upper_y_bound : ℚ) : PlaneMapBuilder :=
  { self with y_bounds := (lower_y_bound, upper_y_bound) }

/-- `PlaneMapBuilder::set_progress_callback`.  `granularity` models the
`u8` argument (callers pass values below `256`); the callback function
argument is effect-only and is modelled by the event list of `build`. -/
def PlaneMapBuilder.set_progress_callback (self : PlaneMapBuilder)
    (granularity : ℕ) : PlaneMapBuilder :=
  let final_granularity :=
    if granularity > 10 then (checked_ilog10 granularity).getD 0 + 1
    else granularity
  { self with callback_config := some ⟨final_granularity⟩ }

/-- `PlaneMapBuilder::set_size` (from the `NoiseMapBuilder` trait impl). -/
def PlaneMapBuilder.set_size (self : PlaneMapBuilder)
    (width height : ℕ) : PlaneMapBuilder :=
  { self with size := (width, height) }

/-- The per-cell `final_value` computation of
`PlaneMapBuilder::<_, 3>::build`.  The extents, steps and current
coordinates are recomputed per cell here instead of hoisted out of the
loop; the values are identical. -/
def PlaneMapBuilder.cellValue (self : PlaneMapBuilder) (x y : ℕ) : ℚ :=
  let width := self.size.1
  let height := self.size.2
  let x_extent := self.x_bounds.2 - self.x_bounds.1
  let y_extent := self.y_bounds.2 - self.y_bounds.1
  let x_step := x_extent / (width : ℚ)
  let y_step := y_extent / (height : ℚ)
  let current_y := self.y_bounds.1 + y_step * (y : ℚ)
  let current_x := self.x_bounds.1 + x_step * (x : ℚ)
  if self.is_seamless then
    let sw_value := self.source_module (current_x, current_y, 0)
    let se_value := self.source_module (current_x + x_extent, current_y, 0)
    let nw_value := self.source_module (current_x, current_y + y_extent, 0)
    let ne_value :=
      self.source_module (current_x + x_extent, current_y + y_extent, 0)
    let x_blend := 1 - ((current_x - self.x_bounds.1) / x_extent)
    let y_blend := 1 - ((current_y - self.y_bounds.1) / y_extent)
    let y0 := interpolate.linear sw_value se_value x_blend
    let y1 := interpolate.linear nw_value ne_value x_blend
    interpolate.linear y0 y1 y_blend
  else
    self.source_module (current_x, current_y, 0)

/-- `PlaneMapBuilder::<_, 3>::build`: fill the map cell by cell and
collect the progress-callback invocations; `none` models the abort on a
remainder-by-zero in the progress check. -/
def PlaneMapBuilder.build (self : PlaneMapBuilder) :
    Option (NoiseMap ℚ × List (ℕ × ℕ)) :=
  buildLoop self.callback_config self.size.1 self.size.2 self.cellValue

/-- `PlaneMapBuilder<NoiseFnWrapper<_, 4>, 4>`: the 4-dimensional
specialization, whose source points carry two extra components. -/
structure PlaneMapBuilder4 where
  is_seamless : Bool
  x_bounds : ℚ × ℚ
  y_bounds : ℚ × ℚ
  size : ℕ × ℕ
  source_module : ℚ × ℚ × ℚ × ℚ → ℚ
  callback_config : Option ProgressCallbackConfig

/-- The per-cell `final_value` computation of the 4-dimensional
`build`: the third point component is `0.0` and the fourth is `0.5`. -/
def PlaneMapBuilder4.cellValue (self : PlaneMapBuilder4) (x y : ℕ) : ℚ :=
  let width := self.size.1
  let height := self.size.2
  let x_extent := self.x_bounds.2 - self.x_bounds.1
  let y_extent := self.y_bounds.2 - self.y_bounds.1
  let x_step := x_extent / (width : ℚ)
  let y_step := y_extent / (height : ℚ)
  let current_y := self.y_bounds.1 + y_step * (y : ℚ)
  let current_x := self.x_bounds.1 + x_step * (x : ℚ)
  if self.is_seamless then
    let sw_value := self.source_module (current_x, current_y, 0, 1/2)
    let se_value := self.source_module (current_x + x_extent, current_y, 0, 1/2)
    let nw_value := self.source_module (current_x, current_y + y_extent, 0, 1/2)
    let ne_value :=
      self.source_module (current_x + x_extent, current_y + y_extent, 0, 1/2)
    let x_blend := 1 - ((current_x - self.x_bounds.1) / x_extent)
    let y_blend := 1 - ((current_y - self.y_bounds.1) / y_extent)
    let y0 := interpolate.linear sw_value se_value x_blend
    let y1 := interpolate.linear nw_value ne_value x_blend
    interpolate.linear y0 y1 y_blend
  else
    self.source_module (current_x, current_y, 0, 1/2)

/-- The 4-dimensional `build`: same loop, 4-component sample points. -/
def PlaneMapBuilder4.build (self : PlaneMapBuilder4) :
    Option (NoiseMap ℚ × List (ℕ × ℕ)) :=
  buildLoop self.callback_config self.size.1 self.size.2 self.cellValue

noncomputable section

/-- `f64::to_radians`. -/
def toRadians (x : ℝ) : ℝ := x * (Real.pi / 180)

/-- `CylinderMapBuilder<SourceModule>`. -/
structure CylinderMapBuilder where
  angle_bounds : ℝ × ℝ
  height_bounds : ℝ × ℝ
  size : ℕ × ℕ
  source_module : ℝ × ℝ × ℝ → ℝ

/-- `CylinderMapBuilder::new`. -/
def CylinderMapBuilder.new (source_module : ℝ × ℝ × ℝ → ℝ) :
    CylinderMapBuilder :=
  { angle_bounds := (-90, 90)
    height_bounds := (-1, 1)
    size := (100, 100)
    source_module := source_module }

/-- `CylinderMapBuilder::set_angle_bounds`: stores the pair swapped when
the arguments arrive out of order. -/
def CylinderMapBuilder.set_angle_bounds (self : CylinderMapBuilder)
    (lower_bound upper_bound : ℝ) : CylinderMapBuilder :=
  let angle_bounds :=
    if lower_bound ≥ upper_bound then (upper_bound, lower_bound)
    else (lower_bound, upper_bound)
  { self with angle_bounds := angle_bounds }

/-- `CylinderMapBuilder::set_height_bounds`: same normalization. -/
def CylinderMapBuilder.set_height_bounds (self : CylinderMapBuilder)
    (lower_bound upper_bound : ℝ) : CylinderMapBuilder :=
  let height_bounds :=
    if lower_bound ≥ upper_bound then (upper_bound, lower_bound)
    else (lower_bound, upper_bound)
  { self with height_bounds := height_bounds }

/-- `CylinderMapBuilder::set_size`. -/
def CylinderMapBuilder.set_size (self : CylinderMapBuilder)
    (width height : ℕ) : CylinderMapBuilder :=
  { self with size := (width, height) }

/-- The per-cell value computation of `CylinderMapBuilder::build`. -/
def CylinderMapBuilder.cellValue (self : CylinderMapBuilder) (x y : ℕ) : ℝ :=
  let width := self.size.1
  let height := self.size.2
  let angle_extent := self.angle_bounds.2 - self.angle_bounds.1
  let height_extent := self.height_bounds.2 - self.height_bounds.1
  let x_step := angle_extent / (width : ℝ)
  let y_step := height_extent / (height : ℝ)
  let current_height := self.height_bounds.1 + y_step * (y : ℝ)
  let current_angle := self.angle_bounds.1 + x_step * (x : ℝ)
  let point_x := Real.cos (toRadians current_angle)
  let point_z := Real.sin (toRadians current_angle)
  self.source_module (point_x, current_height, point_z)

/-- `CylinderMapBuilder::build`. -/
def CylinderMapBuilder.build (self : CylinderMapBuilder) : NoiseMap ℝ :=
  fillLoop self.size.1 self.size.2 self.cellValue

/-- `SphereMapBuilder<SourceModule>`. -/
structure SphereMapBuilder where
  latitude_bounds : ℝ × ℝ
  longitude_bounds : ℝ × ℝ
  size : ℕ × ℕ
  source_module : ℝ × ℝ × ℝ → ℝ

/-- `SphereMapBuilder::new`. -/
def SphereMapBuilder.new (source_module : ℝ × ℝ × ℝ → ℝ) : SphereMapBuilder :=
  { latitude_bounds := (-1, 1)
    longitude_bounds := (-1, 1)
    size := (100, 100)
    source_module := source_module }

/-- `SphereMapBuilder::set_latitude_bounds`: stores verbatim. -/
def SphereMapBuilder.set_latitude_bounds (self : SphereMapBuilder)
    (min_lat_bound max_lat_bound : ℝ) : SphereMapBuilder :=
  { self with latitude_bounds := (min_lat_bound, max_lat_bound) }

/-- `SphereMapBuilder::set_longitude_bounds`: stores verbatim. -/
def SphereMapBuilder.set_longitude_bounds (self : SphereMapBuilder)
    (min_lon_bound max_lon_bound : ℝ) : SphereMapBuilder :=
  { self with longitude_bounds := (min_lon_bound, max_lon_bound) }

/-- `SphereMapBuilder::set_bounds`. -/
def SphereMapBuilder.set_bounds (self : SphereMapBuilder)
    (min_lat_bound max_lat_bound min_lon_bound max_lon_bound : ℝ) :
    SphereMapBuilder :=
  { self with
    latitude_bounds := (min_lat_bound, max_lat_bound)
    longitude_bounds := (min_lon_bound, max_lon_bound) }

/-- `SphereMapBuilder::set_size`. -/
def SphereMapBuilder.set_size (self : SphereMapBuilder)
    (width height : ℕ) : SphereMapBuilder :=
  { self with size := (width, height) }

/-- `sphere_map::lat_lon_to_xyz`: degrees to a point on the unit sphere. -/
def lat_lon_to_xyz (lat lon : ℝ) : ℝ × ℝ × ℝ :=
  let r := Real.cos (toRadians lat)
  let x := r * Real.cos (toRadians lon)
  let y := Real.sin (toRadians lat)
  let z := r * Real.sin (toRadians lon)
  (x, y, z)

/-- The per-cell value computation of `SphereMapBuilder::build`. -/
def SphereMapBuilder.cellValue (self : SphereMapBuilder) (x y : ℕ) : ℝ :=
  let width := self.size.1
  let height := self.size.2
  let lon_extent := self.longitude_bounds.2 - self.longitude_bounds.1
  let lat_extent := self.latitude_bounds.2 - self.latitude_bounds.1
  let x_step := lon_extent / (width : ℝ)
  let y_step := lat_extent / (height : ℝ)
  let current_lat := self.latitude_bounds.1 + y_step * (y : ℝ)
  let current_lon := self.longitude_bounds.1 + x_step * (x : ℝ)
  self.source_module (lat_lon_to_xyz current_lat current_lon)

/-- `SphereMapBuilder::build`. -/
def SphereMapBuilder.build (self : SphereMapBuilder) : NoiseMap ℝ :=
  fillLoop self.size.1 self.size.2 self.cellValue

end

/-! ### Helper lemmas about the fill and build loops -/

theorem NoiseMap.cells_set {α : Type} (m : NoiseMap α) (x y i j : ℕ) (v : α) :
    (m.set x y v).cells i j = if i = x ∧ j = y then v else m.cells i j := rfl

theorem foldl_stepCell_none {α : Type} (cfg : Option ProgressCallbackConfig)
    (W H : ℕ) (cv : ℕ → ℕ → α) (y : ℕ) (l : List ℕ) :
    l.foldl (fun a x => stepCell cfg W H cv a y x) none = none := by
  induction l with
  | nil => rfl
  | cons a l ih => exact ih

theorem stepCell_some {α : Type} {cfg : Option ProgressCallbackConfig}
    (hg : ∀ cc, cfg = some cc → cc.granularity ≠ 0)
    (W H : ℕ) (cv : ℕ → ℕ → α) (m : NoiseMap α) (ev : List (ℕ × ℕ)) (y x : ℕ) :
    stepCell cfg W H cv (some (m, ev)) y x =
      some (m.set x y (cv x y), ev ++ cellEvents cfg W H y x) := by
  cases cfg with
  | none => simp [stepCell, cellEvents]
  | some cc =>
    have h := hg cc rfl
    simp [stepCell, cellEvents, checkedRem, h]

theorem foldl_stepCell_some {α : Type} {cfg : Option ProgressCallbackConfig}
    (hg : ∀ cc, cfg = some cc → cc.granularity ≠ 0)
    (W H : ℕ) (cv : ℕ → ℕ → α) (y : ℕ) (l : List ℕ) :
    ∀ (m : NoiseMap α) (ev : List (ℕ × ℕ)),
      l.foldl (fun a x => stepCell cfg W H cv a y x) (some (m, ev)) =
        some (l.foldl (fun m x => m.set x y (cv x y)) m,
          ev ++ listConcatMap (fun x => cellEvents cfg W H y x) l) := by
  induction l with
  | nil => intro m ev; simp [listConcatMap]
  | cons a l ih =>
    intro m ev
    simp only [List.foldl_cons]
    rw [stepCell_some hg, ih]
    simp [listConcatMap, List.append_assoc]

theorem stepRow_some {α : Type} {cfg : Option ProgressCallbackConfig}
    (hg : ∀ cc, cfg = some cc → cc.granularity ≠ 0)
    (W H : ℕ) (cv : ℕ → ℕ → α) (m : NoiseMap α) (ev : List (ℕ × ℕ)) (y : ℕ) :
    stepRow cfg W H cv (some (m, ev)) y =
      some ((List.range W).foldl (fun m x => m.set x y (cv x y)) m,
        ev ++ listConcatMap (fun x => cellEvents cfg W H y x) (List.range W)) :=
  foldl_stepCell_some hg W H cv y (List.range W) m ev

theorem stepRow_acc_none {α : Type} (cfg : Option ProgressCallbackConfig)
    (W H : ℕ) (cv : ℕ → ℕ → α) (y : ℕ) :
    stepRow cfg W H cv none y = none :=
  foldl_stepCell_none cfg W H cv y (List.range W)

theorem foldl_stepRow_none {α : Type} (cfg : Option ProgressCallbackConfig)
    (W H : ℕ) (cv : ℕ → ℕ → α) (L : List ℕ) :
    L.foldl (fun a y => stepRow cfg W H cv a y) none = none := by
  induction L with
  | nil => rfl
  | cons a L ih =>
    simp only [List.foldl_cons]
    rw [stepRow_acc_none]
    exact ih

theorem foldl_stepRow_some {α : Type} {cfg : Option ProgressCallbackConfig}
    (hg : ∀ cc, cfg = some cc → cc.granularity ≠ 0)
    (W H : ℕ) (cv : ℕ → ℕ → α) (L : List ℕ) :
    ∀ (m : NoiseMap α) (ev : List (ℕ × ℕ)),
      L.foldl (fun a y => stepRow cfg W H cv a y) (some (m, ev)) =
        some (L.foldl
            (fun m y => (List.range W).foldl (fun m x => m.set x y (cv x y)) m) m,
          ev ++ listConcatMap
            (fun y => listConcatMap (fun x => cellEvents cfg W H y x)
              (List.range W)) L) := by
  induction L with
  | nil => intro m ev; simp [listConcatMap]
  | cons a L ih =>
    intro m ev
    simp only [List.foldl_cons]
    rw [stepRow_some hg, ih]
    simp [listConcatMap, List.append_assoc]

theorem buildLoop_eq {α : Type} [Zero α] {cfg : Option ProgressCallbackConfig}
    (hg : ∀ cc, cfg = some cc → cc.granularity ≠ 0)
    (W H : ℕ) (cv : ℕ → ℕ → α) :
    buildLoop cfg W H cv = some (fillLoop W H cv, eventsList cfg W H) := by
  simp only [buildLoop, fillLoop, eventsList]
  rw [foldl_stepRow_some hg]
  simp

theorem buildLoop_abort {α : Type} [Zero α] {cfg : Option ProgressCallbackConfig}
    (h0 : cfg = some ⟨0⟩) {W H : ℕ} (hW : 0 < W) (hH : 0 < H)
    (cv : ℕ → ℕ → α) :
    buildLoop cfg W H cv = none := by
  obtain ⟨W1, rfl⟩ : ∃ W1, W = W1 + 1 := ⟨W - 1, by omega⟩
  obtain ⟨H1, rfl⟩ : ∃ H1, H = H1 + 1 := ⟨H - 1, by omega⟩
  simp only [buildLoop]
  rw [List.range_succ_eq_map]
  simp only [List.foldl_cons]
  have hrow : stepRow cfg (W1 + 1) (H1 + 1) cv
      (some (NoiseMap.new α (W1 + 1) (H1 + 1), [])) 0 = none := by
    simp only [stepRow]
    rw [List.range_succ_eq_map]
    simp only [List.foldl_cons]
    have hcell : stepCell cfg (W1 + 1) (H1 + 1) cv
        (some (NoiseMap.new α (W1 + 1) (H1 + 1), [])) 0 0 = none := by
      subst h0
      simp [stepCell, checkedRem]
    rw [hcell]
    exact foldl_stepCell_none _ _ _ _ _ _
  rw [hrow]
  exact foldl_stepRow_none _ _ _ _ _

theorem fillRow_cells_ne {α : Type} (cv : ℕ → ℕ → α) (y y0 : ℕ) (h : y0 ≠ y)
    (l : List ℕ) : ∀ (m : NoiseMap α) (x0 : ℕ),
    (l.foldl (fun m x => m.set x y (cv x y)) m).cells x0 y0 = m.cells x0 y0 := by
  induction l with
  | nil => intro m x0; rfl
  | cons a l ih =>
    intro m x0
    simp only [List.foldl_cons]
    rw [ih]
    simp [NoiseMap.set, h]

theorem fillRow_cells {α : Type} (cv : ℕ → ℕ → α) (y : ℕ) :
    ∀ (W : ℕ) (m : NoiseMap α) (x0 : ℕ), x0 < W →
    ((List.range W).foldl (fun m x => m.set x y (cv x y)) m).cells x0 y
      = cv x0 y := by
  intro W
  induction W with
  | zero => intro m x0 hx; omega
  | succ W ih =>
    intro m x0 hx
    rw [List.range_succ, List.foldl_append]
    simp only [List.foldl_cons, List.foldl_nil]
    by_cases hx0 : x0 = W
    · subst hx0
      simp [NoiseMap.set]
    · rw [NoiseMap.cells_set, if_neg (by simp [hx0])]
      exact ih _ x0 (by omega)

theorem fillAux_cells {α : Type} (cv : ℕ → ℕ → α) (W : ℕ) :
    ∀ (H : ℕ) (m : NoiseMap α) (x0 y0 : ℕ), x0 < W → y0 < H →
    ((List.range H).foldl
        (fun m y => (List.range W).foldl (fun m x => m.set x y (cv x y)) m)
        m).cells x0 y0 = cv x0 y0 := by
  intro H
  induction H with
  | zero => intro m x0 y0 hx hy; omega
  | succ H ih =>
    intro m x0 y0 hx hy
    rw [List.range_succ, List.foldl_append]
    simp only [List.foldl_cons, List.foldl_nil]
    by_cases hy0 : y0 = H
    · subst hy0
      exact fillRow_cells cv y0 W _ x0 hx
    · rw [fillRow_cells_ne cv H y0 hy0]
      exact ih _ x0 y0 hx (by omega)

theorem fillLoop_cells {α : Type} [Zero α] (W H : ℕ) (cv : ℕ → ℕ → α)
    (x0 y0 : ℕ) (hx : x0 < W) (hy : y0 < H) :
    (fillLoop W H cv).cells x0 y0 = cv x0 y0 :=
  fillAux_cells cv W H (NoiseMap.new α W H) x0 y0 hx hy

theorem foldl_id_nat {α : Type} (l : List ℕ) (m : α) :
    l.foldl (fun m _ => m) m = m := by
  induction l with
  | nil => rfl
  | cons a l ih => exact ih

theorem fillLoop_of_zero {α : Type} [Zero α] (W H : ℕ) (cv : ℕ → ℕ → α)
    (h : W = 0 ∨ H = 0) : fillLoop W H cv = NoiseMap.new α W H := by
  cases h with
  | inr h => subst h; rfl
  | inl h =>
    subst h
    simp only [fillLoop, List.range_zero, List.foldl_nil]
    exact foldl_id_nat _ _

theorem listConcatMap_nil_fn {β : Type} (l : List ℕ) :
    listConcatMap (fun _ => ([] : List β)) l = [] := by
  induction l with
  | nil => rfl
  | cons a l ih => simpa [listConcatMap] using ih

theorem eventsList_none (W H : ℕ) : eventsList none W H = [] := by
  simp [eventsList, cellEvents, listConcatMap_nil_fn]

/-! ### Claims -/

/-- C1: for a non-seamless plane builder with positive size, `build`
writes into cell `(x, y)` the source sampled at
`(x_lower + x_step * x, y_lower + y_step * y)` with
`x_step = (x_upper - x_lower) / width`,
`y_step = (y_upper - y_lower) / height`, the extra point components
being `0` (and `0.5` for the fourth in the 4-dimensional build); in
particular with bounds `(-1, 1)`, size `4 × 4` and a source returning
its first coordinate, every cell in column `x` holds `-1 + x / 2`. -/
theorem claim_C1_plane_nonseamless_sampling :
    (∀ (b : PlaneMapBuilder) (x y : ℕ),
        b.is_seamless = false →
        (∀ cc, b.callback_config = some cc → cc.granularity ≠ 0) →
        x < b.size.1 → y < b.size.2 →
        ∃ m ev, b.build = some (m, ev) ∧
          m.cells x y = b.source_module
            (b.x_bounds.1 + (b.x_bounds.2 - b.x_bounds.1) / (b.size.1 : ℚ) * (x : ℚ),
             b.y_bounds.1 + (b.y_bounds.2 - b.y_bounds.1) / (b.size.2 : ℚ) * (y : ℚ),
             0)) ∧
    (∀ (b : PlaneMapBuilder4) (x y : ℕ),
        b.is_seamless = false →
        (∀ cc, b.callback_config = some cc → cc.granularity ≠ 0) →
        x < b.size.1 → y < b.size.2 →
        ∃ m ev, b.build = some (m, ev) ∧
          m.cells x y = b.source_module
            (b.x_bounds.1 + (b.x_bounds.2 - b.x_bounds.1) / (b.size.1 : ℚ) * (x : ℚ),
             b.y_bounds.1 + (b.y_bounds.2 - b.y_bounds.1) / (b.size.2 : ℚ) * (y : ℚ),
             0, 1/2)) ∧
    (∀ (x y : ℕ), x < 4 → y < 4 →
        ∃ m ev,
          ((PlaneMapBuilder.new fun p => p.1).set_size 4 4).build = some (m, ev) ∧
          m.cells x y = -1 + (1/2) * (x : ℚ)) := by
  have part1 : ∀ (b : PlaneMapBuilder) (x y : ℕ),
      b.is_seamless = false →
      (∀ cc, b.callback_config = some cc → cc.granularity ≠ 0) →
      x < b.size.1 → y < b.size.2 →
      ∃ m ev, b.build = some (m, ev) ∧
        m.cells x y = b.source_module
          (b.x_bounds.1 + (b.x_bounds.2 - b.x_bounds.1) / (b.size.1 : ℚ) * (x : ℚ),
           b.y_bounds.1 + (b.y_bounds.2 - b.y_bounds.1) / (b.size.2 : ℚ) * (y : ℚ),
           0) := by
    intro b x y hseam hg hx hy
    refine ⟨fillLoop b.size.1 b.size.2 b.cellValue,
      eventsList b.callback_config b.size.1 b.size.2,
      buildLoop_eq hg _ _ _, ?_⟩
    rw [fillLoop_cells _ _ _ _ _ hx hy]
    simp [PlaneMapBuilder.cellValue, hseam]
  refine ⟨part1, ?_, ?_⟩
  · intro b x y hseam hg hx hy
    refine ⟨fillLoop b.size.1 b.size.2 b.cellValue,
      eventsList b.callback_config b.size.1 b.size.2,
      buildLoop_eq hg _ _ _, ?_⟩
    rw [fillLoop_cells _ _ _ _ _ hx hy]
    simp [PlaneMapBuilder4.cellValue, hseam]
  · intro x y hx hy
    obtain ⟨m, ev, hb, hc⟩ :=
      part1 ((PlaneMapBuilder.new fun p => p.1).set_size 4 4) x y rfl
        (by intro cc h; exact Option.noConfusion h) hx hy
    refine ⟨m, ev, hb, ?_⟩
    rw [hc]
    norm_num [PlaneMapBuilder.new, PlaneMapBuilder.set_size]

/-- Witness for C1, at the 4 × 4 first-coordinate builder, cell (2, 1). -/
theorem claim_C1_plane_nonseamless_sampling_witness :
    ∃ m ev,
      ((PlaneMapBuilder.new fun p => p.1).set_size 4 4).build = some (m, ev) ∧
      m.cells 2 1 = -1 + (1/2) * ((2 : ℕ) : ℚ) :=
  claim_C1_plane_nonseamless_sampling.2.2 2 1 (by decide) (by decide)

/-- C2: for a seamless plane builder, the value written at `(x, y)` is
the two-stage linear interpolation of the four corner samples at
`(current_x, current_y)`, `(current_x + x_extent, current_y)`,
`(current_x, current_y + y_extent)`,
`(current_x + x_extent, current_y + y_extent)`, first each x-pair with
`x_blend = 1 - (current_x - x_lower) / x_extent`, then the two results
with `y_blend = 1 - (current_y - y_lower) / y_extent`, where
`linear a b t = a + t * (b - a)` without clamping. -/
theorem claim_C2_plane_seamless_blend :
    (∀ (b : PlaneMapBuilder) (x y : ℕ),
        b.is_seamless = true →
        (∀ cc, b.callback_config = some cc → cc.granularity ≠ 0) →
        x < b.size.1 → y < b.size.2 →
        ∃ m ev, b.build = some (m, ev) ∧
          m.cells x y =
            (let x_extent := b.x_bounds.2 - b.x_bounds.1
             let y_extent := b.y_bounds.2 - b.y_bounds.1
             let current_x := b.x_bounds.1 + x_extent / (b.size.1 : ℚ) * (x : ℚ)
             let current_y := b.y_bounds.1 + y_extent / (b.size.2 : ℚ) * (y : ℚ)
             let x_blend := 1 - (current_x - b.x_bounds.1) / x_extent
             let y_blend := 1 - (current_y - b.y_bounds.1) / y_extent
             interpolate.linear
               (interpolate.linear (b.source_module (current_x, current_y, 0))
                 (b.source_module (current_x + x_extent, current_y, 0)) x_blend)
               (interpolate.linear
                 (b.source_module (current_x, current_y + y_extent, 0))
                 (b.source_module (current_x + x_extent, current_y + y_extent, 0))
                 x_blend)
               y_blend)) ∧
    (∀ a b t : ℚ, interpolate.linear a b t = a + t * (b - a)) := by
  refine ⟨?_, fun a b t => rfl⟩
  intro b x y hseam hg hx hy
  refine ⟨fillLoop b.size.1 b.size.2 b.cellValue,
    eventsList b.callback_config b.size.1 b.size.2,
    buildLoop_eq hg _ _ _, ?_⟩
  rw [fillLoop_cells _ _ _ _ _ hx hy]
  simp [PlaneMapBuilder.cellValue, hseam]

/-- Witness for C2, on a seamless `2 × 2` build over the first-coordinate
source: the blend of the corner samples `0, 2, 0, 2` with both blend
factors `1/2` puts `1` into cell `(1, 1)`. -/
theorem claim_C2_plane_seamless_blend_witness :
    ∃ m ev,
      (((PlaneMapBuilder.new fun p => p.1).set_is_seamless true).set_size 2 2).build
        = some (m, ev) ∧ m.cells 1 1 = 1 := by
  obtain ⟨m, ev, hb, hc⟩ := claim_C2_plane_seamless_blend.1
    (((PlaneMapBuilder.new fun p => p.1).set_is_seamless true).set_size 2 2) 1 1
    rfl (fun cc h => Option.noConfusion h) (by decide) (by decide)
  refine ⟨m, ev, hb, ?_⟩
  rw [hc]
  norm_num [PlaneMapBuilder.new, PlaneMapBuilder.set_is_seamless,
    PlaneMapBuilder.set_size, interpolate.linear]

/-- C3 (counterexample): with granularity argument `0` (a legal `u8`),
the stored granularity is `0`, outside the claimed range `[1, 10]`. -/
theorem claim_C3_granularity_range_counterexample :
    ((PlaneMapBuilder.new fun p => p.1).set_progress_callback 0).callback_config
        = some ⟨0⟩ ∧
      ¬ (1 ≤ (0 : ℕ) ∧ (0 : ℕ) ≤ 10) :=
  ⟨rfl, by decide⟩

/-- C3 (amended): for every granularity argument in `[1, 255]` (every
nonzero `u8`), the stored granularity lies in `[1, 10]`; the argument
`0` stores `0`. -/
theorem claim_C3_granularity_range_amended (b : PlaneMapBuilder) (g : ℕ)
    (h1 : 1 ≤ g) (h255 : g ≤ 255) :
    ∃ cc, (b.set_progress_callback g).callback_config = some cc ∧
      1 ≤ cc.granularity ∧ cc.granularity ≤ 10 := by
  refine ⟨⟨if g > 10 then (checked_ilog10 g).getD 0 + 1 else g⟩, rfl, ?_, ?_⟩
  · show 1 ≤ (if g > 10 then (checked_ilog10 g).getD 0 + 1 else g)
    by_cases hg : g > 10
    · rw [if_pos hg]; omega
    · rw [if_neg hg]; omega
  · show (if g > 10 then (checked_ilog10 g).getD 0 + 1 else g) ≤ 10
    by_cases hg : g > 10
    · rw [if_pos hg]
      simp only [checked_ilog10]
      rw [if_neg (by omega)]
      have hlog : Nat.log 10 g < 3 :=
        (Nat.lt_pow_iff_log_lt (by norm_num) (by omega)).mp (by omega)
      simp only [Option.getD_some]
      omega
    · rw [if_neg hg]; omega

/-- Witness for the amended C3, at granularity `37`. -/
theorem claim_C3_granularity_range_amended_witness :
    ∃ cc, ((PlaneMapBuilder.new fun p => p.1).set_progress_callback 37).callback_config
        = some cc ∧ 1 ≤ cc.granularity ∧ cc.granularity ≤ 10 :=
  claim_C3_granularity_range_amended (PlaneMapBuilder.new fun p => p.1) 37
    (by decide) (by decide)

/-- C4: a granularity argument `g ≤ 10` is stored unchanged, and `g > 10`
stores `⌊log₁₀ g⌋ + 1` (`Nat.log 10 g` is that floor, certified by the
surrounding powers of ten); in particular `37` stores `2` and `7`
stores `7`. -/
theorem claim_C4_granularity_normalization :
    (∀ (b : PlaneMapBuilder) (g : ℕ), g ≤ 255 →
        (g ≤ 10 → (b.set_progress_callback g).callback_config = some ⟨g⟩) ∧
        (10 < g →
          (b.set_progress_callback g).callback_config = some ⟨Nat.log 10 g + 1⟩ ∧
          10 ^ Nat.log 10 g ≤ g ∧ g < 10 ^ (Nat.log 10 g + 1))) ∧
    (∀ b : PlaneMapBuilder,
        (b.set_progress_callback 37).callback_config = some ⟨2⟩) ∧
    (∀ b : PlaneMapBuilder,
        (b.set_progress_callback 7).callback_config = some ⟨7⟩) := by
  refine ⟨?_, ?_, fun b => rfl⟩
  · intro b g _
    constructor
    · intro hle
      have hn : ¬ (g > 10) := by omega
      simp [PlaneMapBuilder.set_progress_callback, hn]
    · intro hgt
      refine ⟨?_, Nat.pow_log_le_self 10 (by omega),
        Nat.lt_pow_succ_log_self (by norm_num) g⟩
      simp [PlaneMapBuilder.set_progress_callback, hgt, checked_ilog10,
        show ¬ g = 0 by omega]
  · intro b
    have hl : Nat.log 10 37 = 1 :=
      Nat.log_eq_of_pow_le_of_lt_pow (by norm_num) (by norm_num)
    simp [PlaneMapBuilder.set_progress_callback, checked_ilog10, hl]

/-- Witness for C4, at granularity `37` (and `7`). -/
theorem claim_C4_granularity_normalization_witness :
    ((PlaneMapBuilder.new fun p => p.1).set_progress_callback 37).callback_config
        = some ⟨Nat.log 10 37 + 1⟩ ∧
      10 ^ Nat.log 10 37 ≤ 37 ∧ 37 < 10 ^ (Nat.log 10 37 + 1) :=
  (claim_C4_granularity_normalization.1 (PlaneMapBuilder.new fun p => p.1) 37
    (by decide)).2 (by decide)

/-- C5: with a configured callback of nonzero granularity, the build's
invocation log contains, in traversal order, one invocation with
arguments `(width * height, y * x)` for exactly the cells with
`(y * x) % granularity = 0`; for a `10 × 10` grid with granularity `1`
the callback fires once per cell, `100` times. -/
theorem claim_C5_progress_callback_invocations :
    (∀ (b : PlaneMapBuilder) (cc : ProgressCallbackConfig),
        b.callback_config = some cc → cc.granularity ≠ 0 →
        ∃ m, b.build = some (m,
          listConcatMap (fun y => listConcatMap (fun x =>
              if (y * x) % cc.granularity = 0
              then [(b.size.1 * b.size.2, y * x)] else [])
            (List.range b.size.1)) (List.range b.size.2))) ∧
    (∃ m ev,
      (((PlaneMapBuilder.new fun p => p.1).set_size 10 10).set_progress_callback 1).build
          = some (m, ev) ∧ ev.length = 100) := by
  have part1 : ∀ (b : PlaneMapBuilder) (cc : ProgressCallbackConfig),
      b.callback_config = some cc → cc.granularity ≠ 0 →
      ∃ m, b.build = some (m,
        listConcatMap (fun y => listConcatMap (fun x =>
            if (y * x) % cc.granularity = 0
            then [(b.size.1 * b.size.2, y * x)] else [])
          (List.range b.size.1)) (List.range b.size.2)) := by
    intro b cc hcc hg
    have hg2 : ∀ c, b.callback_config = some c → c.granularity ≠ 0 := by
      intro c h
      rw [hcc] at h
      injection h with h
      rw [← h]
      exact hg
    refine ⟨fillLoop b.size.1 b.size.2 b.cellValue, ?_⟩
    have hb := buildLoop_eq hg2 b.size.1 b.size.2 b.cellValue
    have he : eventsList b.callback_config b.size.1 b.size.2 =
        listConcatMap (fun y => listConcatMap (fun x =>
            if (y * x) % cc.granularity = 0
            then [(b.size.1 * b.size.2, y * x)] else [])
          (List.range b.size.1)) (List.range b.size.2) := by
      rw [hcc]
      rfl
    rw [← he]
    exact hb
  refine ⟨part1, ?_⟩
  obtain ⟨m, hm⟩ := part1
    (((PlaneMapBuilder.new fun p => p.1).set_size 10 10).set_progress_callback 1)
    ⟨1⟩ rfl (by decide)
  exact ⟨m, _, hm, by decide⟩

/-- Witness for C5's quantified part, at granularity `1` on a `2 × 2`
grid. -/
theorem claim_C5_progress_callback_invocations_witness :
    ∃ m,
      (((PlaneMapBuilder.new fun p => p.1).set_size 2 2).set_progress_callback 1).build
        = some (m,
          listConcatMap (fun y => listConcatMap (fun x =>
              if (y * x) % (⟨1⟩ : ProgressCallbackConfig).granularity = 0
              then [((((PlaneMapBuilder.new fun p => p.1).set_size 2 2).set_progress_callback 1).size.1 *
                  (((PlaneMapBuilder.new fun p => p.1).set_size 2 2).set_progress_callback 1).size.2, y * x)] else [])
            (List.range (((PlaneMapBuilder.new fun p => p.1).set_size 2 2).set_progress_callback 1).size.1))
          (List.range (((PlaneMapBuilder.new fun p => p.1).set_size 2 2).set_progress_callback 1).size.2)) :=
  claim_C5_progress_callback_invocations.1
    (((PlaneMapBuilder.new fun p => p.1).set_size 2 2).set_progress_callback 1)
    ⟨1⟩ rfl (by decide)

/-- C6: the cylinder's `set_angle_bounds` stores the pair ordered with
lower first (`(10, -10)` becomes `(-10, 10)`), while the sphere's
`set_latitude_bounds` stores its arguments verbatim (`(10, -10)` stays
`(10, -10)`). -/
theorem claim_C6_bounds_normalization_asymmetry :
    (∀ (c : CylinderMapBuilder) (a b : ℝ),
        (c.set_angle_bounds a b).angle_bounds.1
          ≤ (c.set_angle_bounds a b).angle_bounds.2) ∧
    (∀ c : CylinderMapBuilder,
        (c.set_angle_bounds 10 (-10)).angle_bounds = (-10, 10)) ∧
    (∀ (s : SphereMapBuilder) (a b : ℝ),
        (s.set_latitude_bounds a b).latitude_bounds = (a, b)) ∧
    (∀ s : SphereMapBuilder,
        (s.set_latitude_bounds 10 (-10)).latitude_bounds = (10, -10)) := by
  refine ⟨?_, ?_, fun s a b => rfl, fun s => rfl⟩
  · intro c a b
    simp only [CylinderMapBuilder.set_angle_bounds]
    by_cases h : a ≥ b
    · rw [if_pos h]
      exact h
    · rw [if_neg h]
      exact le_of_not_le h
  · intro c
    simp only [CylinderMapBuilder.set_angle_bounds]
    rw [if_pos (by norm_num)]

/-- C7: the sphere build samples cell `(x, y)` at the unit-sphere point
of latitude `lat_lower + y_step * y` and longitude
`lon_lower + x_step * x` (degrees), where `lat_lon_to_xyz` produces
`(cos lat · cos lon, sin lat, cos lat · sin lon)` in radians; latitude
`0`, longitude `0` maps to `(1, 0, 0)` and latitude `90` to `(0, 1, 0)`. -/
theorem claim_C7_sphere_projection :
    (∀ (s : SphereMapBuilder) (x y : ℕ), x < s.size.1 → y < s.size.2 →
        s.build.cells x y =
          s.source_module (lat_lon_to_xyz
            (s.latitude_bounds.1 +
              (s.latitude_bounds.2 - s.latitude_bounds.1) / (s.size.2 : ℝ) * (y : ℝ))
            (s.longitude_bounds.1 +
              (s.longitude_bounds.2 - s.longitude_bounds.1) / (s.size.1 : ℝ) * (x : ℝ)))) ∧
    (∀ lat lon : ℝ, lat_lon_to_xyz lat lon =
        (Real.cos (toRadians lat) * Real.cos (toRadians lon),
         Real.sin (toRadians lat),
         Real.cos (toRadians lat) * Real.sin (toRadians lon))) ∧
    lat_lon_to_xyz 0 0 = (1, 0, 0) ∧
    (∀ lon : ℝ, lat_lon_to_xyz 90 lon = (0, 1, 0)) := by
  refine ⟨?_, fun lat lon => rfl, ?_, ?_⟩
  · intro s x y hx hy
    show (fillLoop s.size.1 s.size.2 s.cellValue).cells x y = _
    rw [fillLoop_cells _ _ _ _ _ hx hy]
    rfl
  · simp [lat_lon_to_xyz, toRadians]
  · intro lon
    have h : toRadians 90 = Real.pi / 2 := by
      simp only [toRadians]
      ring
    simp [lat_lon_to_xyz, h]

/-- Witness for C7, on a `1 × 1` sphere build over the first-coordinate
source. -/
theorem claim_C7_sphere_projection_witness :
    ((SphereMapBuilder.new fun p => p.1).set_size 1 1).build.cells 0 0 =
      ((SphereMapBuilder.new fun p => p.1).set_size 1 1).source_module
        (lat_lon_to_xyz
          (((SphereMapBuilder.new fun p => p.1).set_size 1 1).latitude_bounds.1 +
            (((SphereMapBuilder.new fun p => p.1).set_size 1 1).latitude_bounds.2 -
              ((SphereMapBuilder.new fun p => p.1).set_size 1 1).latitude_bounds.1) /
              ((((SphereMapBuilder.new fun p => p.1).set_size 1 1).size.2 : ℕ) : ℝ) * ((0 : ℕ) : ℝ))
          (((SphereMapBuilder.new fun p => p.1).set_size 1 1).longitude_bounds.1 +
            (((SphereMapBuilder.new fun p => p.1).set_size 1 1).longitude_bounds.2 -
              ((SphereMapBuilder.new fun p => p.1).set_size 1 1).longitude_bounds.1) /
              ((((SphereMapBuilder.new fun p => p.1).set_size 1 1).size.1 : ℕ) : ℝ) * ((0 : ℕ) : ℝ))) :=
  claim_C7_sphere_projection.1 ((SphereMapBuilder.new fun p => p.1).set_size 1 1)
    0 0 (by decide) (by decide)

/-- C8: with bounds, size, seamlessness and source fixed, the grid of
cell values is identical whether a progress callback (granularity in
`[1, 10]`) is configured or not: the callback-free build returns the
very same map. -/
theorem claim_C8_callback_free_refinement (b : PlaneMapBuilder)
    (cc : ProgressCallbackConfig) (hcc : b.callback_config = some cc)
    (h1 : 1 ≤ cc.granularity) (h10 : cc.granularity ≤ 10) :
    ∃ m ev m2, b.build = some (m, ev) ∧
      ({ b with callback_config := none } : PlaneMapBuilder).build
        = some (m2, []) ∧
      m = m2 := by
  have hg : ∀ c, b.callback_config = some c → c.granularity ≠ 0 := by
    intro c h
    rw [hcc] at h
    injection h with h
    rw [← h]
    omega
  have hgn : ∀ c,
      ({ b with callback_config := none } : PlaneMapBuilder).callback_config
        = some c → c.granularity ≠ 0 := by
    intro c h
    exact Option.noConfusion h
  have h2 : ({ b with callback_config := none } : PlaneMapBuilder).build =
      some (fillLoop b.size.1 b.size.2 b.cellValue,
        eventsList none b.size.1 b.size.2) :=
    buildLoop_eq hgn _ _ _
  have h3 : ({ b with callback_config := none } : PlaneMapBuilder).build =
      some (fillLoop b.size.1 b.size.2 b.cellValue, []) := by
    rw [h2, eventsList_none]
  exact ⟨fillLoop b.size.1 b.size.2 b.cellValue,
    eventsList b.callback_config b.size.1 b.size.2,
    fillLoop b.size.1 b.size.2 b.cellValue,
    buildLoop_eq hg _ _ _, h3, rfl⟩

/-- Witness for C8, at granularity `1`. -/
theorem claim_C8_callback_free_refinement_witness :
    ∃ m ev m2,
      ((PlaneMapBuilder.new fun p => p.1).set_progress_callback 1).build
        = some (m, ev) ∧
      ({ (PlaneMapBuilder.new fun p => p.1).set_progress_callback 1 with
          callback_config := none } : PlaneMapBuilder).build = some (m2, []) ∧
      m = m2 :=
  claim_C8_callback_free_refinement
    ((PlaneMapBuilder.new fun p => p.1).set_progress_callback 1) ⟨1⟩ rfl
    (by decide) (by decide)

/-- C9: with zero width or height (and no callback configured for the
plane), every builder's `build` completes and returns the untouched
zero-area fresh grid: the fill loops run no iteration and sample the
source nowhere. -/
theorem claim_C9_zero_size_builds :
    (∀ b : PlaneMapBuilder, b.callback_config = none →
        b.size.1 = 0 ∨ b.size.2 = 0 →
        b.build = some (NoiseMap.new ℚ b.size.1 b.size.2, []) ∧
          b.size.1 * b.size.2 = 0) ∧
    (∀ c : CylinderMapBuilder, c.size.1 = 0 ∨ c.size.2 = 0 →
        c.build = NoiseMap.new ℝ c.size.1 c.size.2) ∧
    (∀ s : SphereMapBuilder, s.size.1 = 0 ∨ s.size.2 = 0 →
        s.build = NoiseMap.new ℝ s.size.1 s.size.2) := by
  refine ⟨?_, ?_, ?_⟩
  · intro b hnone hz
    have hg : ∀ c, b.callback_config = some c → c.granularity ≠ 0 := by
      intro c h
      rw [hnone] at h
      exact Option.noConfusion h
    constructor
    · have hb : b.build = some (fillLoop b.size.1 b.size.2 b.cellValue,
          eventsList b.callback_config b.size.1 b.size.2) :=
        buildLoop_eq hg _ _ _
      rw [hb, fillLoop_of_zero _ _ _ hz, hnone, eventsList_none]
    · rcases hz with h | h <;> simp [h]
  · intro c hz
    show fillLoop c.size.1 c.size.2 c.cellValue = _
    exact fillLoop_of_zero _ _ _ hz
  · intro s hz
    show fillLoop s.size.1 s.size.2 s.cellValue = _
    exact fillLoop_of_zero _ _ _ hz

/-- Witness for C9: a `0 × 5` plane build, a `3 × 0` cylinder build and
a `0 × 0` sphere build. -/
theorem claim_C9_zero_size_builds_witness :
    (((PlaneMapBuilder.new fun p => p.1).set_size 0 5).build
        = some (NoiseMap.new ℚ 0 5, []) ∧ 0 * 5 = 0) ∧
    ((CylinderMapBuilder.new fun p => p.1).set_size 3 0).build
        = NoiseMap.new ℝ 3 0 ∧
    ((SphereMapBuilder.new fun p => p.1).set_size 0 0).build
        = NoiseMap.new ℝ 0 0 :=
  ⟨claim_C9_zero_size_builds.1 ((PlaneMapBuilder.new fun p => p.1).set_size 0 5)
      rfl (Or.inl rfl),
    claim_C9_zero_size_builds.2.1
      ((CylinderMapBuilder.new fun p => p.1).set_size 3 0) (Or.inr rfl),
    claim_C9_zero_size_builds.2.2
      ((SphereMapBuilder.new fun p => p.1).set_size 0 0) (Or.inl rfl)⟩

/-- C10: configuring the progress callback with granularity `0` and
building with positive width and height aborts the build: the stored
granularity is `0` (kept by the `≤ 10` branch) and the first per-cell
progress check computes a remainder by zero. -/
theorem claim_C10_zero_granularity_aborts (b : PlaneMapBuilder) (w h : ℕ)
    (hw : 0 < w) (hh : 0 < h) :
    ((b.set_progress_callback 0).set_size w h).build = none :=
  buildLoop_abort rfl hw hh _

/-- Witness for C10, on a `1 × 1` grid. -/
theorem claim_C10_zero_granularity_aborts_witness :
    (((PlaneMapBuilder.new fun p => p.1).set_progress_callback 0).set_size 1 1).build
      = none :=
  claim_C10_zero_granularity_aborts (PlaneMapBuilder.new fun p => p.1) 1 1
    (by decide) (by decide)
